import Mathlib

/-!
Verification of the analysis-engine modules of the `awesome-gsc-mcp` repository:
CTR benchmarks (`ctr-benchmarks.ts`), the opportunity scorer
(`opportunity-scorer.ts`), the trend detector (`trend-detector.ts`), the query
classifier (`query-classifier.ts`) and the recommendation engine
(`recommendation-engine.ts`).

Modelling conventions:
- JavaScript numbers are modelled as exact rationals (`ℚ`) in the modules whose
  arithmetic is rational, and as reals (`ℝ`) in the opportunity scorer, whose
  formulas use `Math.log10`.
- `Math.round` is JavaScript round-half-up (towards plus infinity), which is
  exactly Mathlib's `round` (`round x = ⌊x + 1/2⌋`).
- `Math.sqrt` and date parsing (`new Date(s).getTime()`) are taken as parameters
  (`sqrt : ℚ → ℚ`, `dateMs : String → ℚ`) of the trend detector; no claim here
  depends on their concrete values.
- JavaScript `Array.prototype.sort` is stable (ES2019); a stable sort by a total
  preorder is unique, so it is modelled by `List.insertionSort`, which is stable.
-/

/-! ## CTR benchmarks (`ctr-benchmarks.ts`) -/

/-- Performance label of `CtrAnalysis` (`'excellent' | ... | 'poor'`). -/
inductive CtrPerformance where
  | excellent
  | good
  | average
  | below_average
  | poor
  deriving DecidableEq

/-- Result of analyzing an actual CTR against the expected benchmark. -/
structure CtrAnalysis where
  position : ℚ
  actualCtr : ℚ
  expectedCtr : ℚ
  ctrGap : ℚ
  ctrRatio : ℚ
  performance : CtrPerformance
  deriving DecidableEq

/-- Built-in expected organic CTR by position (the `CTR_BENCHMARKS` map). -/
def CTR_BENCHMARKS : List (ℤ × ℚ) :=
  [(1, 0.317), (2, 0.247), (3, 0.187), (4, 0.136), (5, 0.095),
   (6, 0.062), (7, 0.042), (8, 0.031), (9, 0.024), (10, 0.022)]

/-- Average CTR for positions 11-20. -/
def PAGE_TWO_CTR : ℚ := 0.015

/-- Average CTR for positions 21+. -/
def DEEP_CTR : ℚ := 0.005

/-- `getExpectedCtr(position)` from `ctr-benchmarks.ts`:
`Math.max(1, Math.round(position))`, then the benchmark map, then the
page-two / deep fallbacks. -/
def getExpectedCtr (position : ℚ) : ℚ :=
  let roundedPosition : ℤ := max 1 (round position)
  match CTR_BENCHMARKS.lookup roundedPosition with
  | some benchmark => benchmark
  | none => if roundedPosition ≤ 20 then PAGE_TWO_CTR else DEEP_CTR

/-- Spec-side description of `expectedCtr` (for the refinement claim C1):
round to nearest integer, clamp to at least 1, fixed table for ranks 1-10,
flat 0.015 for ranks 11-20, flat 0.005 above 20. -/
def expectedCtrSpec (position : ℚ) : ℚ :=
  let rank : ℤ := max 1 (round position)
  if rank = 1 then 0.317
  else if rank = 2 then 0.247
  else if rank = 3 then 0.187
  else if rank = 4 then 0.136
  else if rank = 5 then 0.095
  else if rank = 6 then 0.062
  else if rank = 7 then 0.042
  else if rank = 8 then 0.031
  else if rank = 9 then 0.024
  else if rank = 10 then 0.022
  else if rank ≤ 20 then 0.015
  else 0.005

/-! ## Opportunity scorer (`opportunity-scorer.ts`) -/

/-- Priority bucket (`'critical' | 'high' | 'medium' | 'low'`), shared by
`OpportunityScore.priority` and `Recommendation.priority`. -/
inductive Priority where
  | critical
  | high
  | medium
  | low
  deriving DecidableEq

/-- A single factor contributing to the overall opportunity score. -/
structure ScoreFactor where
  name : String
  weight : ℝ
  value : ℝ
  contribution : ℝ

/-- The final scored opportunity with breakdown of contributing factors. -/
structure OpportunityScore where
  score : ℝ
  priority : Priority
  factors : List ScoreFactor

/-- Input parameters for scoring an opportunity (`OpportunityParams`).
Optional fields are `Option`; `undefined` is `none`. -/
structure OpportunityParams where
  impressions : ℝ
  clicks : ℝ
  ctr : ℝ
  position : ℝ
  expectedCtr : Option ℝ := none
  trend : Option ℝ := none
  queryCount : Option ℝ := none

/-- Factor weights (the `WEIGHTS` constant object). -/
structure Weights where
  impressions : ℝ
  ctrGap : ℝ
  position : ℝ
  trend : ℝ
  queryCount : ℝ

/-- The fixed weights of the five factors. -/
noncomputable def WEIGHTS : Weights :=
  ⟨0.30, 0.25, 0.25, 0.10, 0.10⟩

/-- Log-scale normalization cap for impressions (`MAX_IMPRESSIONS_LOG`). -/
def MAX_IMPRESSIONS_LOG : ℝ := 5

/-- Log-scale normalization cap for query count (`MAX_QUERY_COUNT_LOG`). -/
def MAX_QUERY_COUNT_LOG : ℝ := 3

/-- Default expected CTR values by rounded position (`DEFAULT_EXPECTED_CTR`),
kept self-contained in the scorer to mirror the source's duplicated table. -/
noncomputable def DEFAULT_EXPECTED_CTR : List (ℤ × ℝ) :=
  [(1, 0.317), (2, 0.247), (3, 0.187), (4, 0.136), (5, 0.095),
   (6, 0.062), (7, 0.042), (8, 0.031), (9, 0.024), (10, 0.022)]

/-- `getDefaultExpectedCtr(position)` from `opportunity-scorer.ts`. -/
noncomputable def getDefaultExpectedCtr (position : ℝ) : ℝ :=
  let rounded : ℤ := max 1 (round position)
  match DEFAULT_EXPECTED_CTR.lookup rounded with
  | some benchmark => benchmark
  | none => if rounded ≤ 20 then 0.015 else 0.005

/-- `clamp100(value)`: clamps a value to the 0-100 range. -/
noncomputable def clamp100 (value : ℝ) : ℝ :=
  max 0 (min 100 value)

/-- `normalizeImpressions(impressions)`: log-scaled 0-100 normalization;
`Math.log10` is `Real.logb 10`. -/
noncomputable def normalizeImpressions (impressions : ℝ) : ℝ :=
  if impressions ≤ 0 then 0
  else clamp100 (Real.logb 10 (impressions + 1) / MAX_IMPRESSIONS_LOG * 100)

/-- `normalizeCtrGap(actualCtr, expectedCtr)`. -/
noncomputable def normalizeCtrGap (actualCtr expectedCtr : ℝ) : ℝ :=
  if expectedCtr ≤ 0 then 0
  else if expectedCtr - actualCtr ≤ 0 then 0
  else clamp100 ((expectedCtr - actualCtr) / expectedCtr * 100)

/-- `normalizePosition(position)`. -/
noncomputable def normalizePosition (position : ℝ) : ℝ :=
  if position ≤ 0 then 100
  else if 100 ≤ position then 0
  else clamp100 (100 * (1 - Real.logb 10 position / 2))

/-- `normalizeTrend(trend)`: maps [-1, 1] (declining...rising) to [100, 0]. -/
noncomputable def normalizeTrend (trend : ℝ) : ℝ :=
  clamp100 (50 - trend * 50)

/-- `normalizeQueryCount(queryCount)`. -/
noncomputable def normalizeQueryCount (queryCount : ℝ) : ℝ :=
  if queryCount ≤ 0 then 0
  else clamp100 (Real.logb 10 (queryCount + 1) / MAX_QUERY_COUNT_LOG * 100)

/-- `getPriority(score)`: score ≥ 80 critical, ≥ 60 high, ≥ 40 medium, else low. -/
noncomputable def getPriority (score : ℝ) : Priority :=
  if 80 ≤ score then .critical
  else if 60 ≤ score then .high
  else if 40 ≤ score then .medium
  else .low

/-- `Math.round(x * 100) / 100`, the 2-decimal rounding applied to the score. -/
noncomputable def roundTo2 (x : ℝ) : ℝ :=
  ((round (x * 100) : ℤ) : ℝ) / 100

/-- `scoreOpportunity(params)` from `opportunity-scorer.ts`. -/
noncomputable def scoreOpportunity (params : OpportunityParams) : OpportunityScore :=
  let trend := params.trend.getD 0
  let queryCount := params.queryCount.getD 1
  let resolvedExpectedCtr := params.expectedCtr.getD (getDefaultExpectedCtr params.position)
  let impressionsValue := normalizeImpressions params.impressions
  let ctrGapValue := normalizeCtrGap params.ctr resolvedExpectedCtr
  let positionValue := normalizePosition params.position
  let trendValue := normalizeTrend trend
  let queryCountValue := normalizeQueryCount queryCount
  let factors : List ScoreFactor :=
    [⟨"impressions", WEIGHTS.impressions, impressionsValue,
        WEIGHTS.impressions * impressionsValue⟩,
     ⟨"ctrGap", WEIGHTS.ctrGap, ctrGapValue, WEIGHTS.ctrGap * ctrGapValue⟩,
     ⟨"position", WEIGHTS.position, positionValue, WEIGHTS.position * positionValue⟩,
     ⟨"trend", WEIGHTS.trend, trendValue, WEIGHTS.trend * trendValue⟩,
     ⟨"queryCount", WEIGHTS.queryCount, queryCountValue,
        WEIGHTS.queryCount * queryCountValue⟩]
  let score := clamp100 (factors.foldl (fun sum factor => sum + factor.contribution) 0)
  ⟨roundTo2 score, getPriority score, factors⟩

/-! ### Helper lemmas for the scorer -/

theorem clamp100_nonneg (x : ℝ) : 0 ≤ clamp100 x :=
  le_max_left 0 _

theorem clamp100_le_100 (x : ℝ) : clamp100 x ≤ 100 :=
  max_le (by norm_num) (min_le_left _ _)

theorem clamp100_eq_self {x : ℝ} (h0 : 0 ≤ x) (h1 : x ≤ 100) : clamp100 x = x := by
  unfold clamp100
  rw [min_eq_right h1, max_eq_right h0]

theorem normalizeImpressions_bounds (x : ℝ) :
    0 ≤ normalizeImpressions x ∧ normalizeImpressions x ≤ 100 := by
  unfold normalizeImpressions
  split
  · norm_num
  · exact ⟨clamp100_nonneg _, clamp100_le_100 _⟩

theorem normalizeCtrGap_bounds (a e : ℝ) :
    0 ≤ normalizeCtrGap a e ∧ normalizeCtrGap a e ≤ 100 := by
  unfold normalizeCtrGap
  split
  · norm_num
  · split
    · norm_num
    · exact ⟨clamp100_nonneg _, clamp100_le_100 _⟩

theorem normalizePosition_bounds (p : ℝ) :
    0 ≤ normalizePosition p ∧ normalizePosition p ≤ 100 := by
  unfold normalizePosition
  split
  · norm_num
  · split
    · norm_num
    · exact ⟨clamp100_nonneg _, clamp100_le_100 _⟩

theorem normalizeTrend_bounds (t : ℝ) :
    0 ≤ normalizeTrend t ∧ normalizeTrend t ≤ 100 :=
  ⟨clamp100_nonneg _, clamp100_le_100 _⟩

theorem normalizeQueryCount_bounds (n : ℝ) :
    0 ≤ normalizeQueryCount n ∧ normalizeQueryCount n ≤ 100 := by
  unfold normalizeQueryCount
  split
  · norm_num
  · exact ⟨clamp100_nonneg _, clamp100_le_100 _⟩

theorem roundTo2_bounds {x : ℝ} (h0 : 0 ≤ x) (h1 : x ≤ 100) :
    0 ≤ roundTo2 x ∧ roundTo2 x ≤ 100 := by
  unfold roundTo2
  have hlow : (0 : ℤ) ≤ round (x * 100) := by
    rw [round_eq]
    exact Int.le_floor.mpr (by push_cast; linarith)
  have hhigh : round (x * 100) ≤ 10000 := by
    rw [round_eq]
    have : x * 100 + 1 / 2 ≤ (10000 : ℝ) + 1 / 2 := by linarith
    calc ⌊x * 100 + 1 / 2⌋ ≤ ⌊(10000 : ℝ) + 1 / 2⌋ := Int.floor_mono this
      _ = 10000 := by norm_num
  constructor
  · positivity
  · rw [div_le_iff₀ (by norm_num : (0:ℝ) < 100)]
    exact_mod_cast hhigh

theorem roundTo2_add_ten (x : ℝ) : roundTo2 (x + 10) = roundTo2 x + 10 := by
  unfold roundTo2
  rw [show (x + 10) * 100 = x * 100 + ((1000 : ℤ) : ℝ) by push_cast; ring, round_add_int]
  push_cast
  ring

theorem rankLookup_eq_spec (r : ℤ) (h1 : 1 ≤ r) :
    (match CTR_BENCHMARKS.lookup r with
     | some benchmark => benchmark
     | none => if r ≤ 20 then PAGE_TWO_CTR else DEEP_CTR) =
    (if r = 1 then (0.317 : ℚ)
     else if r = 2 then 0.247
     else if r = 3 then 0.187
     else if r = 4 then 0.136
     else if r = 5 then 0.095
     else if r = 6 then 0.062
     else if r = 7 then 0.042
     else if r = 8 then 0.031
     else if r = 9 then 0.024
     else if r = 10 then 0.022
     else if r ≤ 20 then 0.015
     else 0.005) := by
  by_cases h20 : r ≤ 20
  · interval_cases r <;> rfl
  · have hlk : CTR_BENCHMARKS.lookup r = none := by
      simp [CTR_BENCHMARKS, List.lookup,
        show (r == (1:ℤ)) = false by simp; omega,
        show (r == (2:ℤ)) = false by simp; omega,
        show (r == (3:ℤ)) = false by simp; omega,
        show (r == (4:ℤ)) = false by simp; omega,
        show (r == (5:ℤ)) = false by simp; omega,
        show (r == (6:ℤ)) = false by simp; omega,
        show (r == (7:ℤ)) = false by simp; omega,
        show (r == (8:ℤ)) = false by simp; omega,
        show (r == (9:ℤ)) = false by simp; omega,
        show (r == (10:ℤ)) = false by simp; omega]
    rw [hlk]
    show (if r ≤ 20 then PAGE_TWO_CTR else DEEP_CTR) = _
    rw [if_neg h20, if_neg (by omega : ¬ r = 1), if_neg (by omega : ¬ r = 2),
      if_neg (by omega : ¬ r = 3), if_neg (by omega : ¬ r = 4), if_neg (by omega : ¬ r = 5),
      if_neg (by omega : ¬ r = 6), if_neg (by omega : ¬ r = 7), if_neg (by omega : ¬ r = 8),
      if_neg (by omega : ¬ r = 9), if_neg (by omega : ¬ r = 10), if_neg h20]
    rfl

set_option maxHeartbeats 1000000 in
theorem expectedCtrSpec_pos (p : ℚ) : 0 < expectedCtrSpec p := by
  unfold expectedCtrSpec
  dsimp only
  split_ifs <;> norm_num

/-- C1: `getExpectedCtr` rounds the position to the nearest integer, clamps the
result to at least 1, then returns the fixed table value for ranks 1-10
(rank 1 gives 0.317, rank 5 gives 0.095, rank 10 gives 0.022), 0.015 for ranks
11-20 and 0.005 above 20; in particular `getExpectedCtr 1.6 = 0.247` and the
result is always strictly positive. -/
theorem getExpectedCtr_spec_conform (p : ℚ) :
    getExpectedCtr p = expectedCtrSpec p ∧ 0 < getExpectedCtr p ∧
    getExpectedCtr 1.6 = 0.247 ∧ getExpectedCtr 1 = 0.317 ∧ getExpectedCtr 5 = 0.095 ∧
    getExpectedCtr 10 = 0.022 ∧ getExpectedCtr 15 = 0.015 ∧ getExpectedCtr 50 = 0.005 := by
  have heq : ∀ q : ℚ, getExpectedCtr q = expectedCtrSpec q := fun q =>
    rankLookup_eq_spec (max 1 (round q)) (le_max_left 1 _)
  refine ⟨heq p, ?_, ?_, ?_, ?_, ?_, ?_, ?_⟩
  · rw [heq p]
    exact expectedCtrSpec_pos p
  · unfold getExpectedCtr
    rw [show max 1 (round (1.6 : ℚ)) = 2 by rw [round_eq]; norm_num]
    rfl
  · unfold getExpectedCtr
    rw [show max 1 (round (1 : ℚ)) = 1 by rw [round_eq]; norm_num]
    rfl
  · unfold getExpectedCtr
    rw [show max 1 (round (5 : ℚ)) = 5 by rw [round_eq]; norm_num]
    rfl
  · unfold getExpectedCtr
    rw [show max 1 (round (10 : ℚ)) = 10 by rw [round_eq]; norm_num]
    rfl
  · unfold getExpectedCtr
    rw [show max 1 (round (15 : ℚ)) = 15 by rw [round_eq]; norm_num]
    rfl
  · unfold getExpectedCtr
    rw [show max 1 (round (50 : ℚ)) = 50 by rw [round_eq]; norm_num]
    rfl

/-- C2: every `scoreOpportunity` result has its score in [0,100], exactly the
five factors impressions/ctrGap/position/trend/queryCount with the constant
weights 0.30/0.25/0.25/0.10/0.10 summing to 1, each contribution equal to
weight times value, the score equal to the clamped contribution sum rounded to
2 decimals, and an input with 0 impressions has impressions factor value 0. -/
theorem scoreOpportunity_invariants (p : OpportunityParams) :
    0 ≤ (scoreOpportunity p).score ∧ (scoreOpportunity p).score ≤ 100 ∧
    (scoreOpportunity p).factors.map ScoreFactor.name =
      ["impressions", "ctrGap", "position", "trend", "queryCount"] ∧
    (scoreOpportunity p).factors.map ScoreFactor.weight = [0.30, 0.25, 0.25, 0.10, 0.10] ∧
    ((scoreOpportunity p).factors.map ScoreFactor.weight).sum = 1 ∧
    (scoreOpportunity p).factors.map ScoreFactor.contribution =
      (scoreOpportunity p).factors.map (fun f => f.weight * f.value) ∧
    (scoreOpportunity p).score =
      roundTo2 (clamp100 ((scoreOpportunity p).factors.foldl
        (fun sum factor => sum + factor.contribution) 0)) ∧
    ((scoreOpportunity { p with impressions := 0 }).factors.map ScoreFactor.value).head?
      = some 0 := by
  have hb := roundTo2_bounds (clamp100_nonneg
      ((scoreOpportunity p).factors.foldl (fun sum factor => sum + factor.contribution) 0))
    (clamp100_le_100 _)
  refine ⟨?_, ?_, ?_, ?_, ?_, ?_, ?_, ?_⟩
  · exact hb.1
  · exact hb.2
  · rfl
  · simp [scoreOpportunity, WEIGHTS]
  · simp [scoreOpportunity, WEIGHTS]
    norm_num
  · rfl
  · rfl
  · have h0 : normalizeImpressions 0 = 0 := by
      unfold normalizeImpressions
      rw [if_pos le_rfl]
    simp [scoreOpportunity, h0]

/-- C10: `scoreOpportunity` does not depend on the `clicks` field of its input:
changing only `clicks` leaves the score, priority, and factors identical. -/
theorem scoreOpportunity_ignores_clicks (p : OpportunityParams) (c : ℝ) :
    scoreOpportunity { p with clicks := c } = scoreOpportunity p := rfl

theorem normalizeTrend_of_mem_Icc {t : ℝ} (h1 : -1 ≤ t) (h2 : t ≤ 1) :
    normalizeTrend t = 50 - t * 50 := by
  unfold normalizeTrend
  exact clamp100_eq_self (by nlinarith) (by nlinarith)

/-- C9: with all other inputs identical, a declining trend (-1) scores strictly
higher than a rising trend (1); the trend factor maps t in [-1,1] to 50 - t*50,
so declining scores 100 and rising scores 0 on that factor. -/
theorem scoreOpportunity_declining_beats_rising (p : OpportunityParams) (t : ℝ)
    (ht1 : -1 ≤ t) (ht2 : t ≤ 1) :
    (scoreOpportunity { p with trend := some (-1) }).score >
      (scoreOpportunity { p with trend := some 1 }).score ∧
    normalizeTrend t = 50 - t * 50 ∧
    normalizeTrend (-1) = 100 ∧ normalizeTrend 1 = 0 := by
  have hm1 : normalizeTrend (-1) = 100 := by
    rw [normalizeTrend_of_mem_Icc (by norm_num) (by norm_num)]
    ring
  have hp1 : normalizeTrend 1 = 0 := by
    rw [normalizeTrend_of_mem_Icc (by norm_num) (by norm_num)]
    ring
  refine ⟨?_, normalizeTrend_of_mem_Icc ht1 ht2, hm1, hp1⟩
  have hv1 := normalizeImpressions_bounds p.impressions
  have hv2 := normalizeCtrGap_bounds p.ctr
    (p.expectedCtr.getD (getDefaultExpectedCtr p.position))
  have hv3 := normalizePosition_bounds p.position
  have hv5 := normalizeQueryCount_bounds (p.queryCount.getD 1)
  show roundTo2 (clamp100 _) > roundTo2 (clamp100 _)
  simp only [scoreOpportunity, List.foldl, Option.getD_some, WEIGHTS, hm1, hp1]
  set v1 := normalizeImpressions p.impressions with hdefv1
  set v2 := normalizeCtrGap p.ctr (p.expectedCtr.getD (getDefaultExpectedCtr p.position))
    with hdefv2
  set v3 := normalizePosition p.position with hdefv3
  set v5 := normalizeQueryCount (p.queryCount.getD 1) with hdefv5
  have hsum : 0 + 0.30 * v1 + 0.25 * v2 + 0.25 * v3 + 0.10 * 100 + 0.10 * v5 =
      (0 + 0.30 * v1 + 0.25 * v2 + 0.25 * v3 + 0.10 * 0 + 0.10 * v5) + 10 := by ring
  rw [hsum]
  have hlo : 0 ≤ 0 + 0.30 * v1 + 0.25 * v2 + 0.25 * v3 + 0.10 * 0 + 0.10 * v5 := by
    obtain ⟨h1, _⟩ := hv1; obtain ⟨h2, _⟩ := hv2
    obtain ⟨h3, _⟩ := hv3; obtain ⟨h5, _⟩ := hv5
    linarith
  have hhi : 0 + 0.30 * v1 + 0.25 * v2 + 0.25 * v3 + 0.10 * 0 + 0.10 * v5 ≤ 90 := by
    obtain ⟨_, h1⟩ := hv1; obtain ⟨_, h2⟩ := hv2
    obtain ⟨_, h3⟩ := hv3; obtain ⟨_, h5⟩ := hv5
    linarith
  rw [clamp100_eq_self hlo (by linarith), clamp100_eq_self (by linarith) (by linarith),
    roundTo2_add_ten]
  linarith

/-- Witness for C9 at the all-zero parameter record and t = 0. -/
theorem scoreOpportunity_declining_beats_rising_witness :
    (-1 : ℝ) ≤ 0 ∧ (0 : ℝ) ≤ 1 ∧
    ((scoreOpportunity { (⟨0, 0, 0, 0, none, none, none⟩ : OpportunityParams) with
        trend := some (-1) }).score >
      (scoreOpportunity { (⟨0, 0, 0, 0, none, none, none⟩ : OpportunityParams) with
        trend := some 1 }).score ∧
      normalizeTrend 0 = 50 - 0 * 50 ∧
      normalizeTrend (-1) = 100 ∧ normalizeTrend 1 = 0) :=
  ⟨by norm_num, by norm_num,
    scoreOpportunity_declining_beats_rising ⟨0, 0, 0, 0, none, none, none⟩ 0
      (by norm_num) (by norm_num)⟩

/-- C8 counterexample: at impressions = 9 the code computes
clamp100(log10(10) / 5 * 100) = 20, while the claimed formula
clamp100(log10(10) / log10(100001) * 100) is strictly below 20, because
log10(100001) > 5; so the claimed denominator log10(100001) is wrong. -/
theorem normalizeImpressions_log100001_counterexample :
    ¬ (normalizeImpressions 9 =
        clamp100 (Real.logb 10 (9 + 1) / Real.logb 10 100001 * 100)) := by
  have h10 : Real.logb 10 ((9 : ℝ) + 1) = 1 := by
    rw [show ((9 : ℝ) + 1) = 10 by norm_num]
    exact Real.logb_self_eq_one (by norm_num)
  have hL : (5 : ℝ) < Real.logb 10 100001 := by
    rw [show (5 : ℝ) = ((5 : ℕ) : ℝ) by norm_num]
    refine (Real.lt_logb_iff_rpow_lt (by norm_num) (by norm_num)).mpr ?_
    rw [Real.rpow_natCast]
    norm_num
  have hLpos : (0 : ℝ) < Real.logb 10 100001 := by linarith
  have hlhs : normalizeImpressions 9 = 20 := by
    unfold normalizeImpressions MAX_IMPRESSIONS_LOG
    rw [if_neg (by norm_num : ¬ (9 : ℝ) ≤ 0), h10,
      show (1 : ℝ) / 5 * 100 = 20 by norm_num]
    exact clamp100_eq_self (by norm_num) (by norm_num)
  have hrhs : clamp100 (Real.logb 10 (9 + 1) / Real.logb 10 100001 * 100) < 20 := by
    rw [h10]
    have hlt : 1 / Real.logb 10 100001 * 100 < 20 := by
      rw [div_mul_eq_mul_div, one_mul, div_lt_iff₀ hLpos]
      linarith
    have hpos : 0 ≤ 1 / Real.logb 10 100001 * 100 := by positivity
    rw [clamp100_eq_self hpos (by linarith)]
    exact hlt
  intro h
  rw [hlhs] at h
  rw [← h] at hrhs
  exact lt_irrefl _ hrhs

/-- C8 (amended): for impressions > 0 the impressions factor value is
clamp100(log10(impressions+1) / 5 * 100) where 5 = log10(100000) (not
log10(100001) as the spec wrote), and 0 for impressions ≤ 0; for queryCount
n > 0 the value is clamp100(log10(n+1) / 3 * 100) where 3 = log10(1000) (not
log10(1001)); queryCount defaults to 1 when omitted. -/
theorem normalize_log_formulas (x n y : ℝ) (q : OpportunityParams)
    (hx : 0 < x) (hn : 0 < n) (hy : y ≤ 0) :
    normalizeImpressions x = clamp100 (Real.logb 10 (x + 1) / 5 * 100) ∧
    normalizeImpressions y = 0 ∧
    normalizeQueryCount n = clamp100 (Real.logb 10 (n + 1) / 3 * 100) ∧
    scoreOpportunity { q with queryCount := none } =
      scoreOpportunity { q with queryCount := some 1 } := by
  refine ⟨?_, ?_, ?_, rfl⟩
  · unfold normalizeImpressions MAX_IMPRESSIONS_LOG
    rw [if_neg (not_le.mpr hx)]
  · unfold normalizeImpressions
    rw [if_pos hy]
  · unfold normalizeQueryCount MAX_QUERY_COUNT_LOG
    rw [if_neg (not_le.mpr hn)]

/-- Witness for the amended C8 at impressions = queryCount = 9. -/
theorem normalize_log_formulas_witness :
    (0 : ℝ) < 9 ∧ (0 : ℝ) < 9 ∧ (0 : ℝ) ≤ 0 ∧
    (normalizeImpressions 9 = clamp100 (Real.logb 10 (9 + 1) / 5 * 100) ∧
     normalizeImpressions 0 = 0 ∧
     normalizeQueryCount 9 = clamp100 (Real.logb 10 (9 + 1) / 3 * 100) ∧
     scoreOpportunity { (⟨0, 0, 0, 0, none, none, none⟩ : OpportunityParams) with
        queryCount := none } =
       scoreOpportunity { (⟨0, 0, 0, 0, none, none, none⟩ : OpportunityParams) with
        queryCount := some 1 }) :=
  ⟨by norm_num, by norm_num, le_refl 0,
    normalize_log_formulas 9 9 0 ⟨0, 0, 0, 0, none, none, none⟩
      (by norm_num) (by norm_num) (le_refl 0)⟩

/-! ## Trend detector (`trend-detector.ts`)

`Math.sqrt` and `new Date(s).getTime()` are taken as parameters
(`sqrt : ℚ → ℚ` and `dateMs : String → ℚ`); the claims below hold for every
choice of these parameters, or are witnessed at concrete instances. -/

/-- Overall direction of the trend (`'rising' | 'falling' | 'stable'`). -/
inductive TrendDirection where
  | rising
  | falling
  | stable
  deriving DecidableEq

/-- Direction of a breakpoint (`'up' | 'down'`). -/
inductive BreakDirection where
  | up
  | down
  deriving DecidableEq

/-- A single data point in a time series. -/
structure TrendPoint where
  date : String
  value : ℚ
  deriving DecidableEq

/-- A detected sudden change (breakpoint) in the time series. -/
structure Breakpoint where
  date : String
  changePercent : ℚ
  direction : BreakDirection
  deriving DecidableEq

/-- The result of analyzing a time series for trends. -/
structure TrendAnalysis where
  direction : TrendDirection
  slope : ℚ
  percentChange : ℚ
  volatility : ℚ
  confidence : ℚ
  breakpoints : List Breakpoint
  summary : String
  deriving DecidableEq

/-- Minimum slope magnitude (per day, as fraction of mean) for rising/falling. -/
def DIRECTION_THRESHOLD : ℚ := 0.005

/-- Breakpoint sensitivity multiplier. -/
def BREAKPOINT_MULTIPLIER : ℚ := 2

/-- Minimum number of data points required for meaningful analysis. -/
def MIN_POINTS : ℕ := 2

/-- Result record of `linearRegression`. -/
structure RegressionResult where
  slope : ℚ
  intercept : ℚ
  rSquared : ℚ

/-- `linearRegression(xs, ys)` from `trend-detector.ts` (least squares). The
source iterates `i < xs.length` reading `xs[i]` and `ys[i]`; it is only called
with lists of equal length, rendered here as folds over `xs.zip ys`. -/
def linearRegression (xs ys : List ℚ) : RegressionResult :=
  let n := xs.length
  if n < MIN_POINTS then ⟨0, ys.headD 0, 0⟩
  else
    let sumX := xs.foldl (· + ·) 0
    let sumY := ys.foldl (· + ·) 0
    let sumXY := (xs.zip ys).foldl (fun s p => s + p.1 * p.2) 0
    let sumXX := xs.foldl (fun s x => s + x * x) 0
    let denominator := (n : ℚ) * sumXX - sumX * sumX
    if denominator = 0 then ⟨0, sumY / (n : ℚ), 0⟩
    else
      let slope := ((n : ℚ) * sumXY - sumX * sumY) / denominator
      let intercept := (sumY - slope * sumX) / (n : ℚ)
      let meanY := sumY / (n : ℚ)
      let ssTot := ys.foldl (fun s y => s + (y - meanY) ^ 2) 0
      let ssRes := (xs.zip ys).foldl (fun s p => s + (p.2 - (slope * p.1 + intercept)) ^ 2) 0
      let rSquared := if ssTot = 0 then 0 else 1 - ssRes / ssTot
      ⟨slope, intercept, max 0 rSquared⟩

/-- `mean(values)`: arithmetic mean, 0 for an empty list. -/
def mean (values : List ℚ) : ℚ :=
  if values.length = 0 then 0 else values.foldl (· + ·) 0 / (values.length : ℚ)

/-- `stddev(values, avg?)`: population standard deviation, with `Math.sqrt`
passed as the parameter. -/
def stddev (sqrt : ℚ → ℚ) (values : List ℚ) (avg : Option ℚ) : ℚ :=
  if values.length = 0 then 0
  else
    let m := avg.getD (mean values)
    sqrt (values.foldl (fun s v => s + (v - m) ^ 2) 0 / (values.length : ℚ))

/-- `dateToDayOffset(dateStr, baseTime)`: milliseconds to days. -/
def dateToDayOffset (dateMs : String → ℚ) (dateStr : String) (baseTime : ℚ) : ℚ :=
  (dateMs dateStr - baseTime) / (1000 * 60 * 60 * 24)

/-- One-decimal formatting, modelling `Number.prototype.toFixed(1)`
(round half away from zero). -/
def toFixed1 (x : ℚ) : String :=
  let scaled : ℤ := if 0 ≤ x then round (x * 10) else -(round (-x * 10))
  (if scaled < 0 then "-" else "") ++ toString (scaled.natAbs / 10) ++ "." ++
    toString (scaled.natAbs % 10)

/-- `buildSummary(direction, percentChange, confidence, breakpoints, volatility)`
from `trend-detector.ts`. -/
def buildSummary (direction : TrendDirection) (percentChange confidence : ℚ)
    (breakpoints : List Breakpoint) (volatility : ℚ) : String :=
  let dirLabel :=
    match direction with
    | .rising => "upward"
    | .falling => "downward"
    | .stable => "stable"
  let changeStr := (if 0 ≤ percentChange then "+" else "") ++ toFixed1 percentChange ++ "%"
  let parts1 := ["Trend is " ++ dirLabel ++ " (" ++ changeStr ++ " over the period)."]
  let parts2 := parts1 ++
    [if (0.7 : ℚ) ≤ confidence then "Strong trend signal."
     else if (0.4 : ℚ) ≤ confidence then "Moderate trend signal."
     else "Weak trend signal; data is noisy."]
  let parts3 := parts2 ++
    (if (0.5 : ℚ) < volatility then ["High volatility detected."]
     else if (0.2 : ℚ) < volatility then ["Moderate volatility."] else [])
  let parts4 := parts3 ++
    (if 0 < breakpoints.length then
      [toString breakpoints.length ++ " sudden change" ++
        (if 1 < breakpoints.length then "s" else "") ++ " detected."]
     else [])
  String.intercalate " " parts4

/-- Body of `detectTrend` after the minimum-length guard, as a function of the
date-sorted point list (everything after `const sorted = ...` in the source). -/
def detectTrendSorted (sqrt : ℚ → ℚ) (dateMs : String → ℚ)
    (sorted : List TrendPoint) : TrendAnalysis :=
  let baseTime := dateMs ((sorted.headD ⟨"", 0⟩).date)
  let xs := sorted.map (fun p => dateToDayOffset dateMs p.date baseTime)
  let ys := sorted.map TrendPoint.value
  let reg := linearRegression xs ys
  let firstValue := ys.headD 0
  let lastValue := ys.getLastD 0
  let percentChange := if firstValue ≠ 0 then (lastValue - firstValue) / |firstValue| * 100 else 0
  let meanValue := mean ys
  let stddevValue := stddev sqrt ys (some meanValue)
  let volatility := if meanValue ≠ 0 then stddevValue / |meanValue| else 0
  let dailyChanges := (ys.zip ys.tail).map (fun p => |p.2 - p.1|)
  let avgDailyChange := mean dailyChanges
  let breakpoints := (sorted.zip sorted.tail).filterMap (fun pr =>
    let change := pr.2.value - pr.1.value
    if 0 < avgDailyChange ∧ BREAKPOINT_MULTIPLIER * avgDailyChange < |change| then
      some ⟨pr.2.date,
        |if pr.1.value ≠ 0 then change / |pr.1.value| * 100 else 0|,
        if 0 < change then BreakDirection.up else BreakDirection.down⟩
    else none)
  let normalizedSlope := if meanValue ≠ 0 then reg.slope / |meanValue| else 0
  let direction : TrendDirection :=
    if DIRECTION_THRESHOLD < normalizedSlope then .rising
    else if normalizedSlope < -DIRECTION_THRESHOLD then .falling
    else .stable
  ⟨direction, reg.slope, percentChange, volatility, reg.rSquared, breakpoints,
    buildSummary direction percentChange reg.rSquared breakpoints volatility⟩

/-- `detectTrend(points)` from `trend-detector.ts`: neutral result below
`MIN_POINTS`, otherwise sort by parsed date (stable, like `Array.sort`) and
analyze. -/
def detectTrend (sqrt : ℚ → ℚ) (dateMs : String → ℚ)
    (points : List TrendPoint) : TrendAnalysis :=
  if points.length < MIN_POINTS then
    ⟨.stable, 0, 0, 0, 0, [],
      "Insufficient data for trend analysis (need at least 2 points)."⟩
  else
    detectTrendSorted sqrt dateMs
      (points.insertionSort (fun a b => dateMs a.date ≤ dateMs b.date))

/-- C5: on a list of 0 or 1 points, `detectTrend` does not fail and returns the
neutral result: stable direction, slope 0, percentChange 0, volatility 0,
confidence 0, no breakpoints, and a summary noting insufficient data. -/
theorem detectTrend_short_input (sqrt : ℚ → ℚ) (dateMs : String → ℚ) (p : TrendPoint) :
    detectTrend sqrt dateMs [] =
      ⟨.stable, 0, 0, 0, 0, [],
        "Insufficient data for trend analysis (need at least 2 points)."⟩ ∧
    detectTrend sqrt dateMs [p] =
      ⟨.stable, 0, 0, 0, 0, [],
        "Insufficient data for trend analysis (need at least 2 points)."⟩ :=
  ⟨rfl, rfl⟩

theorem insertionSort_key_unique {α : Type} (key : α → ℚ) (l₁ l₂ : List α)
    (hperm : l₁.Perm l₂) (hnd : (l₁.map key).Nodup) :
    l₁.insertionSort (fun a b => key a ≤ key b) =
      l₂.insertionSort (fun a b => key a ≤ key b) := by
  set r : α → α → Prop := fun a b => key a ≤ key b with hr
  haveI : IsTotal α r := ⟨fun a b => le_total (key a) (key b)⟩
  haveI : IsTrans α r := ⟨fun a b c hab hbc => le_trans hab hbc⟩
  have hs₁ : List.Sorted r (l₁.insertionSort r) := List.sorted_insertionSort r l₁
  have hs₂ : List.Sorted r (l₂.insertionSort r) := List.sorted_insertionSort r l₂
  have hp : (l₁.insertionSort r).Perm (l₂.insertionSort r) :=
    (List.perm_insertionSort r l₁).trans (hperm.trans (List.perm_insertionSort r l₂).symm)
  have hnd₁ : ((l₁.insertionSort r).map key).Nodup :=
    (((List.perm_insertionSort r l₁).map key).nodup_iff).mpr hnd
  have hnd₂ : ((l₂.insertionSort r).map key).Nodup := by
    refine (((List.perm_insertionSort r l₂).map key).nodup_iff).mpr ?_
    exact ((hperm.map key).nodup_iff).mp hnd
  have hstrict₁ : List.Sorted (fun a b => key a < key b) (l₁.insertionSort r) := by
    have hne := List.pairwise_map.mp hnd₁
    exact (hs₁.and hne).imp (fun hab => lt_of_le_of_ne hab.1 hab.2)
  have hstrict₂ : List.Sorted (fun a b => key a < key b) (l₂.insertionSort r) := by
    have hne := List.pairwise_map.mp hnd₂
    exact (hs₂.and hne).imp (fun hab => lt_of_le_of_ne hab.1 hab.2)
  haveI : IsAntisymm α (fun a b => key a < key b) :=
    ⟨fun a b h1 h2 => absurd (lt_trans h1 h2) (lt_irrefl _)⟩
  exact List.eq_of_perm_of_sorted hp hstrict₁ hstrict₂

/-- C6 (amended): `detectTrend` is invariant under permutation of its input
whenever the parsed dates of the points are pairwise distinct; with duplicate
dates the stable sort preserves input order and the result can differ. -/
theorem detectTrend_perm_invariant (sqrt : ℚ → ℚ) (dateMs : String → ℚ)
    (l₁ l₂ : List TrendPoint) (hperm : l₁.Perm l₂)
    (hnd : (l₁.map (fun p => dateMs p.date)).Nodup) :
    detectTrend sqrt dateMs l₁ = detectTrend sqrt dateMs l₂ := by
  unfold detectTrend
  have hlen := hperm.length_eq
  rw [hlen]
  by_cases h2 : l₂.length < MIN_POINTS
  · rw [if_pos h2, if_pos h2]
  · rw [if_neg h2, if_neg h2,
      insertionSort_key_unique (fun p => dateMs p.date) l₁ l₂ hperm hnd]

/-- Witness for the amended C6: two points with distinct dates, swapped. -/
theorem detectTrend_perm_invariant_witness :
    List.Perm [(⟨"a", 1⟩ : TrendPoint), ⟨"bb", 2⟩] [⟨"bb", 2⟩, ⟨"a", 1⟩] ∧
    (([(⟨"a", 1⟩ : TrendPoint), ⟨"bb", 2⟩].map
        (fun p => ((fun s => (s.length : ℚ)) p.date))).Nodup) ∧
    detectTrend (fun q => q) (fun s => (s.length : ℚ)) [⟨"a", 1⟩, ⟨"bb", 2⟩] =
      detectTrend (fun q => q) (fun s => (s.length : ℚ)) [⟨"bb", 2⟩, ⟨"a", 1⟩] :=
  ⟨List.Perm.swap _ _ _, by simp; decide, detectTrend_perm_invariant _ _ _ _
    (List.Perm.swap _ _ _) (by simp; decide)⟩

/-- C6 counterexample: two points with the SAME date string (hence equal parsed
dates under any date model) and values 1 and 2. The stable sort keeps input
order, so the swapped list yields percentChange -50 instead of 100, and the two
`TrendAnalysis` records differ: `detectTrend` is not permutation-invariant as
claimed. `sqrt` does not enter `percentChange`. -/
theorem detectTrend_perm_counterexample :
    List.Perm [(⟨"2024-01-01", 1⟩ : TrendPoint), ⟨"2024-01-01", 2⟩]
      [⟨"2024-01-01", 2⟩, ⟨"2024-01-01", 1⟩] ∧
    detectTrend (fun q => q) (fun _ => 0) [⟨"2024-01-01", 1⟩, ⟨"2024-01-01", 2⟩] ≠
      detectTrend (fun q => q) (fun _ => 0) [⟨"2024-01-01", 2⟩, ⟨"2024-01-01", 1⟩] := by
  constructor
  · exact List.Perm.swap _ _ _
  · intro h
    have hpc := congrArg TrendAnalysis.percentChange h
    have h1 : (detectTrend (fun q => q) (fun _ => 0)
        [(⟨"2024-01-01", 1⟩ : TrendPoint), ⟨"2024-01-01", 2⟩]).percentChange = 100 := by
      norm_num [detectTrend, detectTrendSorted, MIN_POINTS, List.insertionSort,
        List.orderedInsert, mean, stddev, linearRegression, dateToDayOffset]
    have h2 : (detectTrend (fun q => q) (fun _ => 0)
        [(⟨"2024-01-01", 2⟩ : TrendPoint), ⟨"2024-01-01", 1⟩]).percentChange = -50 := by
      norm_num [detectTrend, detectTrendSorted, MIN_POINTS, List.insertionSort,
        List.orderedInsert, mean, stddev, linearRegression, dateToDayOffset]
    rw [h1, h2] at hpc
    norm_num at hpc

/-! ## Query classifier (`query-classifier.ts`)

Each classification rule carries a regex literal; these are modelled as data
(`QueryPat`) together with an evaluator implementing JavaScript regex semantics
for the constructs those literals use: `\b` word boundaries, alternation,
`^` anchoring, `\s+\d+` (whitespace then digits, as in `top\s+\d+`), optional
suffixes expanded into explicit alternatives (`vs\.?`, `suggestions?`), and
`.+` (one or more non-newline characters, as in `what does .+ mean`). -/

/-- Word character of JavaScript regexes: alphanumeric or underscore. -/
def isWordChar (c : Char) : Bool := c.isAlphanum || c == '_'

/-- Wordness of an optional character; the edge of the string is non-word. -/
def isWordOpt : Option Char → Bool
  | none => false
  | some c => isWordChar c

/-- Word boundary between two adjacent positions: exactly one side is a word
character. -/
def bMatch (a b : Option Char) : Bool := isWordOpt a != isWordOpt b

/-- Literal alternative with a word boundary on each side, matched at the
current position (`prev` is the character just before it). -/
def litHere (w : List Char) (prev : Option Char) (s : List Char) : Bool :=
  w.isPrefixOf s && bMatch prev w.head? && bMatch w.getLast? ((s.drop w.length).head?)

/-- Literal followed by whitespace then digits then a word boundary
(the `top\s+\d+` alternative). -/
def litNumHere (w : List Char) (prev : Option Char) (s : List Char) : Bool :=
  w.isPrefixOf s && bMatch prev w.head? &&
    (let rest := s.drop w.length
     let gap := rest.takeWhile Char.isWhitespace
     let rest2 := rest.dropWhile Char.isWhitespace
     let digits := rest2.takeWhile Char.isDigit
     decide (0 < gap.length) && decide (0 < digits.length) &&
       !(isWordOpt ((rest2.drop digits.length).head?)))

/-- Two literals separated by whitespace (the `top\s+ten` alternative). -/
def litGapLitHere (a b : List Char) (prev : Option Char) (s : List Char) : Bool :=
  a.isPrefixOf s && bMatch prev a.head? &&
    (let rest := s.drop a.length
     let gap := rest.takeWhile Char.isWhitespace
     let rest2 := rest.dropWhile Char.isWhitespace
     decide (0 < gap.length) && b.isPrefixOf rest2 &&
       bMatch b.getLast? ((rest2.drop b.length).head?))

/-- After the leading literal of a `.+`-alternative: at least one non-newline
character, then the trailing literal with a word boundary after it. -/
def midPost (post : List Char) : List Char → Bool
  | [] => false
  | c :: rest =>
    c != '\n' &&
      ((post.isPrefixOf rest && bMatch post.getLast? ((rest.drop post.length).head?)) ||
        midPost post rest)

/-- Leading literal, then `.+`, then trailing literal
(the `what does .+ mean` alternative). -/
def litAnyLitHere (pre post : List Char) (prev : Option Char) (s : List Char) : Bool :=
  pre.isPrefixOf s && bMatch prev pre.head? && midPost post (s.drop pre.length)

/-- Try a position test at every position of the string, tracking the
preceding character (unanchored regex search). -/
def patScan (test : Option Char → List Char → Bool) : Option Char → List Char → Bool
  | prev, [] => test prev []
  | prev, c :: rest => test prev (c :: rest) || patScan test (some c) rest

/-- One alternative inside a `\b( ... )\b` group. -/
inductive WordAlt where
  | lit (w : String)
  | litNum (w : String)
  | litGapLit (a b : String)
  | litAnyLit (pre post : String)
  deriving DecidableEq

/-- Position test of one alternative. -/
def altHere : WordAlt → Option Char → List Char → Bool
  | .lit w => litHere w.data
  | .litNum w => litNumHere w.data
  | .litGapLit a b => litGapLitHere a.data b.data
  | .litAnyLit pre post => litAnyLitHere pre.data post.data

/-- A rule pattern: an unanchored `\b(alt|...)\b` group, or an anchored
`^word (alt|...)\b` prefix disjunction. -/
inductive QueryPat where
  | anyOf (alts : List WordAlt)
  | startsAnyOf (alts : List String)
  deriving DecidableEq

/-- Anchored prefix with a trailing word boundary. -/
def startsHere (p s : List Char) : Bool :=
  p.isPrefixOf s && bMatch p.getLast? ((s.drop p.length).head?)

/-- `pattern.test(s)` for the modelled pattern. -/
def patMatches (pat : QueryPat) (s : String) : Bool :=
  match pat with
  | .anyOf alts => alts.any (fun a => patScan (altHere a) none s.data)
  | .startsAnyOf ps => ps.any (fun p => startsHere p.data s.data)

/-- The detected intent category of a search query. -/
inductive QueryIntent where
  | informational
  | transactional
  | navigational
  | investigational
  | problem_solving
  deriving DecidableEq

/-- A search query annotated with its classified intent. -/
structure ClassifiedQuery where
  query : String
  intent : QueryIntent
  subType : Option String := none
  confidence : ℚ
  deriving DecidableEq

/-- Internal representation of a classification rule. -/
structure ClassificationRule where
  intent : QueryIntent
  subType : Option String := none
  pattern : QueryPat
  confidence : ℚ
  deriving DecidableEq

/-- `CLASSIFICATION_RULES` from `query-classifier.ts`, in source order. -/
def CLASSIFICATION_RULES : List ClassificationRule := [
  ⟨.problem_solving, some "troubleshoot", .anyOf [.lit "troubleshoot", .lit "diagnose"], 0.9⟩,
  ⟨.problem_solving, some "debug", .anyOf [.lit "debug", .lit "debugging"], 0.9⟩,
  ⟨.problem_solving, some "fix", .anyOf [.lit "fix", .lit "repair", .lit "resolve"], 0.85⟩,
  ⟨.problem_solving, some "error",
    .anyOf [.lit "error", .lit "errors", .lit "exception", .lit "crash", .lit "crashed"], 0.85⟩,
  ⟨.problem_solving, some "issue",
    .anyOf [.lit "issue", .lit "issues", .lit "problem", .lit "problems"], 0.75⟩,
  ⟨.problem_solving, some "fix", .anyOf [.lit "not working"], 0.9⟩,
  ⟨.problem_solving, some "fix", .anyOf [.lit "solve"], 0.8⟩,
  ⟨.investigational, some "comparison",
    .anyOf [.lit "vs", .lit "vs.", .lit "versus", .lit "compared to", .lit "comparison"], 0.9⟩,
  ⟨.investigational, some "alternative",
    .anyOf [.lit "alternative", .lit "alternatives", .lit "instead of", .lit "similar to"], 0.85⟩,
  ⟨.investigational, some "review",
    .anyOf [.lit "review", .lit "reviews", .lit "rating", .lit "ratings"], 0.85⟩,
  ⟨.investigational, some "best",
    .anyOf [.lit "best", .litNum "top", .litGapLit "top" "ten"], 0.8⟩,
  ⟨.investigational, some "recommendation",
    .anyOf [.lit "recommend", .lit "recommendation", .lit "suggestion", .lit "suggestions"], 0.8⟩,
  ⟨.transactional, some "purchase",
    .anyOf [.lit "buy", .lit "purchase", .lit "order", .lit "add to cart"], 0.9⟩,
  ⟨.transactional, some "pricing",
    .anyOf [.lit "price", .lit "pricing", .lit "cost", .lit "how much"], 0.85⟩,
  ⟨.transactional, some "deal",
    .anyOf [.lit "cheap", .lit "deal", .lit "deals", .lit "discount", .lit "sale",
      .lit "coupon", .lit "promo", .lit "voucher"], 0.85⟩,
  ⟨.transactional, some "shopping",
    .anyOf [.lit "shop", .lit "shopping", .lit "store", .lit "checkout"], 0.8⟩,
  ⟨.transactional, some "shipping",
    .anyOf [.lit "free shipping", .lit "delivery", .lit "shipping"], 0.8⟩,
  ⟨.transactional, some "subscription",
    .anyOf [.lit "subscribe", .lit "subscription", .lit "plan", .lit "plans", .lit "tier"], 0.75⟩,
  ⟨.navigational, some "login",
    .anyOf [.lit "login", .lit "log in", .lit "sign in", .lit "signin", .lit "sign up",
      .lit "signup", .lit "register"], 0.9⟩,
  ⟨.navigational, some "account",
    .anyOf [.lit "dashboard", .lit "account", .lit "my account", .lit "profile",
      .lit "settings"], 0.85⟩,
  ⟨.navigational, some "contact",
    .anyOf [.lit "contact", .lit "support", .lit "help center", .lit "customer service"], 0.8⟩,
  ⟨.navigational, some "download",
    .anyOf [.lit "download", .lit "install", .lit "app"], 0.7⟩,
  ⟨.informational, some "how-to",
    .startsAnyOf ["how to", "how do", "how does", "how can", "how should"], 0.9⟩,
  ⟨.informational, some "definition",
    .startsAnyOf ["what is", "what are", "what was", "what were", "what does"], 0.9⟩,
  ⟨.informational, some "explanation",
    .startsAnyOf ["why is", "why are", "why do", "why does", "why did", "why would",
      "why should"], 0.9⟩,
  ⟨.informational, some "temporal",
    .startsAnyOf ["when is", "when are", "when do", "when does", "when did", "when was",
      "when were", "when will"], 0.9⟩,
  ⟨.informational, some "location",
    .startsAnyOf ["where is", "where are", "where do", "where does", "where can",
      "where to"], 0.9⟩,
  ⟨.informational, some "identity",
    .startsAnyOf ["who is", "who are", "who was", "who were"], 0.9⟩,
  ⟨.informational, some "guide",
    .anyOf [.lit "guide", .lit "tutorial", .lit "walkthrough", .lit "step by step"], 0.85⟩,
  ⟨.informational, some "learning",
    .anyOf [.lit "learn", .lit "learning", .lit "understand", .lit "explained",
      .lit "explanation"], 0.8⟩,
  ⟨.informational, some "definition",
    .anyOf [.lit "meaning", .lit "definition", .lit "define",
      .litAnyLit "what does " " mean"], 0.85⟩,
  ⟨.informational, some "example",
    .anyOf [.lit "example", .lit "examples", .lit "sample", .lit "template"], 0.75⟩]

/-- `query.toLowerCase()` (character-wise lowering). -/
def jsToLower (s : String) : String := ⟨s.data.map Char.toLower⟩

/-- `query.trim()`: strip leading and trailing whitespace. -/
def jsTrim (s : String) : String :=
  ⟨((s.data.dropWhile Char.isWhitespace).reverse.dropWhile Char.isWhitespace).reverse⟩

/-- Count of maximal whitespace runs, tracking whether the previous character
was whitespace. -/
def countWsRuns : Bool → List Char → ℕ
  | _, [] => 0
  | prevWs, c :: rest =>
    if c.isWhitespace then (if prevWs then 0 else 1) + countWsRuns true rest
    else countWsRuns false rest

/-- `s.split(/\s+/).length`: one more than the number of separator runs. -/
def jsSplitWsLen (s : String) : ℕ := countWsRuns false s.data + 1

/-- `classifyQuery(query)` from `query-classifier.ts`: first matching rule
wins; otherwise the single-word brand heuristic, otherwise informational. -/
def classifyQuery (query : String) : ClassifiedQuery :=
  let normalized := jsTrim (jsToLower query)
  match CLASSIFICATION_RULES.find? (fun rule => patMatches rule.pattern normalized) with
  | some rule => ⟨query, rule.intent, rule.subType, rule.confidence⟩
  | none =>
    if jsSplitWsLen normalized = 1 ∧ 2 < normalized.length then
      ⟨query, .navigational, some "brand", 0.4⟩
    else ⟨query, .informational, none, 0.3⟩

/-- C7: `classifyQuery` evaluates the ordered rule list against the lowercased,
trimmed query and returns the first matching rule's intent, subType and fixed
confidence; with no match, a single-word query of length > 2 is navigational
with subType brand and confidence 0.4, and any other unmatched query is
informational with confidence 0.3; the function is total, so it never raises.
In particular "buy iphone" is transactional/purchase with confidence at least
0.8, and "github" is navigational/brand with confidence 0.4. -/
theorem classifyQuery_spec (q : String) :
    classifyQuery q =
      (match CLASSIFICATION_RULES.find?
          (fun rule => patMatches rule.pattern (jsTrim (jsToLower q))) with
       | some rule => ⟨q, rule.intent, rule.subType, rule.confidence⟩
       | none =>
         if jsSplitWsLen (jsTrim (jsToLower q)) = 1 ∧ 2 < (jsTrim (jsToLower q)).length then
           ⟨q, QueryIntent.navigational, some "brand", 0.4⟩
         else ⟨q, QueryIntent.informational, none, 0.3⟩) ∧
    (classifyQuery "buy iphone").intent = QueryIntent.transactional ∧
    (classifyQuery "buy iphone").subType = some "purchase" ∧
    (0.8 : ℚ) ≤ (classifyQuery "buy iphone").confidence ∧
    classifyQuery "github" = ⟨"github", QueryIntent.navigational, some "brand", 0.4⟩ := by
  refine ⟨rfl, rfl, rfl, ?_, rfl⟩
  rw [show (classifyQuery "buy iphone").confidence = 0.9 from rfl]
  norm_num

/-! ## Recommendation engine (`recommendation-engine.ts`) -/

/-- Estimated effort (`'low' | 'medium' | 'high'`). -/
inductive Effort where
  | low
  | medium
  | high
  deriving DecidableEq

/-- The `data` evidence bag of a recommendation: the union of the fields the
engine ever stores, each optional (`undefined` is `none`). -/
structure RecData where
  query : Option String := none
  page : Option String := none
  position : Option ℚ := none
  impressions : Option ℚ := none
  ctr : Option ℚ := none
  ctrRatio : Option ℚ := none
  pages : Option (List String) := none
  totalImpressions : Option ℚ := none
  pageCount : Option ℕ := none
  key : Option String := none
  percentChange : Option ℚ := none
  confidence : Option ℚ := none
  direction : Option TrendDirection := none
  deriving DecidableEq

/-- A single actionable recommendation. -/
structure Recommendation where
  type : String
  priority : Priority
  title : String
  description : String
  impact : String
  effort : Effort
  data : RecData
  deriving DecidableEq

/-- A row of GSC data for a single query/page combination. -/
structure GscRow where
  query : String
  page : String
  clicks : ℚ
  impressions : ℚ
  ctr : ℚ
  position : ℚ
  deriving DecidableEq

/-- Input data for generating recommendations; the JavaScript `Map`s are
modelled as insertion-ordered association lists. -/
structure RecommendationInput where
  rows : List GscRow
  ctrAnalyses : Option (List CtrAnalysis) := none
  trends : Option (List (String × TrendAnalysis)) := none
  opportunities : Option (List (String × OpportunityScore)) := none

/-- Impression threshold for high volume. -/
def HIGH_IMPRESSIONS_THRESHOLD : ℚ := 1000

/-- Impression threshold for medium volume. -/
def MEDIUM_IMPRESSIONS_THRESHOLD : ℚ := 100

/-- Low CTR relative to expected (ratio). -/
def LOW_CTR_RATIO : ℚ := 0.6

/-- `PRIORITY_ORDER`: lower index means higher priority. -/
def PRIORITY_ORDER : Priority → ℚ
  | .critical => 0
  | .high => 1
  | .medium => 2
  | .low => 3

/-- `isQuestionQuery(query)`: the anchored interrogative regex
`^(how|what|why|when|where|who|which|can|does|is|are|do|should|will)\b`
applied to the lowercased, trimmed query. -/
def isQuestionQuery (query : String) : Bool :=
  let normalized := jsTrim (jsToLower query)
  ["how", "what", "why", "when", "where", "who", "which", "can", "does", "is",
   "are", "do", "should", "will"].any (fun w => startsHere w.data normalized.data)

/-- Comma grouping of reversed digit characters (helper for `toLocaleString`). -/
def insertCommas : ℕ → List Char → List Char
  | _, [] => []
  | i, c :: rest => (if i ≠ 0 ∧ i % 3 = 0 then [',', c] else [c]) ++ insertCommas (i + 1) rest

/-- Rendering of the integer impression counts, modelling
`Number.prototype.toLocaleString()` (thousands separators). -/
def toLocaleString (q : ℚ) : String :=
  if q.den = 1 ∧ 0 ≤ q.num then
    ⟨(insertCommas 0 (toString q.num.natAbs).data.reverse).reverse⟩
  else toString q

/-- Rule 1 (`checkTitleOptimization`): position 1-3, at least medium
impressions, low CTR (ratio below 0.6 when an analysis is supplied, otherwise
raw ctr below 0.05). -/
def checkTitleOptimization (row : GscRow) (ctrAnalysis : Option CtrAnalysis) :
    Option Recommendation :=
  if 3 < row.position then none
  else if row.impressions < MEDIUM_IMPRESSIONS_THRESHOLD then none
  else
    let isLowCtr : Bool :=
      match ctrAnalysis with
      | some a => decide (a.ctrRatio < LOW_CTR_RATIO)
      | none => decide (row.ctr < 0.05)
    if isLowCtr then
      some ⟨"title_optimization", .high,
        "Rewrite your title tag and meta description",
        "The page \"" ++ row.page ++ "\" ranks in position " ++ toFixed1 row.position ++
          " for \"" ++ row.query ++ "\" with " ++ toLocaleString row.impressions ++
          " impressions but only a " ++ toFixed1 (row.ctr * 100) ++
          "% CTR. This is significantly below the expected CTR for this position. " ++
          "Improving the title tag and meta description to be more compelling and " ++
          "relevant could substantially increase clicks.",
        "Could increase clicks by " ++ toString (round ((1 / max row.ctr 0.001 - 1) * 30)) ++
          "%+ by closing the CTR gap.",
        .low,
        { query := some row.query, page := some row.page, position := some row.position,
          impressions := some row.impressions, ctr := some row.ctr,
          ctrRatio := ctrAnalysis.map CtrAnalysis.ctrRatio }⟩
    else none

/-- Rule 2 (`checkContentExpansion`): position 4-10 with high impressions. -/
def checkContentExpansion (row : GscRow) : Option Recommendation :=
  if row.position < 4 ∨ 10 < row.position then none
  else if row.impressions < HIGH_IMPRESSIONS_THRESHOLD then none
  else
    some ⟨"content_expansion", .high,
      "Add internal links and expand content to push into top 3",
      "The page \"" ++ row.page ++ "\" ranks at position " ++ toFixed1 row.position ++
        " for \"" ++ row.query ++ "\" with " ++ toLocaleString row.impressions ++
        " impressions. It is on page 1 but not in the top 3. " ++
        "Adding internal links from related pages, expanding the content depth, and " ++
        "improving on-page SEO signals could push it into the top positions where CTR " ++
        "is significantly higher.",
      "Moving from position 5 to position 1 can increase CTR by 3-4x.",
      .medium,
      { query := some row.query, page := some row.page, position := some row.position,
        impressions := some row.impressions }⟩

/-- Rule 3 (`checkPageTwoContent`): position 11-20 with high impressions. -/
def checkPageTwoContent (row : GscRow) : Option Recommendation :=
  if row.position < 11 ∨ 20 < row.position then none
  else if row.impressions < HIGH_IMPRESSIONS_THRESHOLD then none
  else
    some ⟨"page_two_optimization", .medium,
      "Page 2 keyword needs content refresh and link building",
      "The page \"" ++ row.page ++ "\" ranks at position " ++ toFixed1 row.position ++
        " for \"" ++ row.query ++ "\" with " ++ toLocaleString row.impressions ++
        " impressions. This keyword is on page 2 of search results. " ++
        "A content refresh (updating information, improving structure, adding media) " ++
        "combined with link building efforts could push this onto page 1 where the vast " ++
        "majority of clicks occur.",
      "Moving from page 2 to page 1 typically increases traffic by 5-10x.",
      .high,
      { query := some row.query, page := some row.page, position := some row.position,
        impressions := some row.impressions }⟩

/-- Rule 4 (`checkCannibalization`): at least two pages for the same query. -/
def checkCannibalization (query : String) (rows : List GscRow) : Option Recommendation :=
  if rows.length < 2 then none
  else
    let pages := rows.map GscRow.page
    let totalImpressions := rows.foldl (fun s r => s + r.impressions) 0
    some ⟨"consolidation", .high,
      "Consolidate or canonicalize competing pages",
      toString rows.length ++ " pages are competing for the query \"" ++ query ++ "\": " ++
        String.intercalate ", " (pages.map (fun p => "\"" ++ p ++ "\"")) ++
        ". This keyword cannibalization can dilute ranking signals. " ++
        "Consider consolidating content into a single authoritative page and setting up " ++
        "301 redirects or canonical tags for the others.",
      "Consolidation often leads to a single page ranking higher than any individual " ++
        "competing page.",
      .medium,
      { query := some query, pages := some pages,
        totalImpressions := some totalImpressions, pageCount := some rows.length }⟩

/-- Rule 5 (`checkDecliningTrend`): falling trend, with a medium-impressions
guard when a matching row is available. -/
def checkDecliningTrend (key : String) (trend : TrendAnalysis) (row : Option GscRow) :
    Option Recommendation :=
  if trend.direction ≠ .falling then none
  else if (match row with
           | some r => decide (r.impressions < MEDIUM_IMPRESSIONS_THRESHOLD)
           | none => false) then none
  else
    some ⟨"content_refresh", .critical,
      "Urgent: content refresh needed to reverse declining trend",
      "Traffic for \"" ++ key ++ "\" is declining (" ++ toFixed1 trend.percentChange ++
        "% change). " ++
        (if (0.7 : ℚ) ≤ trend.confidence then "This is a strong, consistent decline. "
         else "The trend signal is moderate. ") ++
        "Immediate action is recommended: update the content with fresh information, " ++
        "improve the user experience, and check for any technical SEO issues. " ++
        "Also verify that competitors have not published superior content.",
      "Stopping a decline early preserves existing traffic and can reverse losses.",
      .medium,
      { key := some key, percentChange := some trend.percentChange,
        confidence := some trend.confidence, direction := some trend.direction,
        impressions := row.map GscRow.impressions }⟩

/-- Rule 7 (`checkNicheKeyword`): position 1-5 with fewer than 10 impressions. -/
def checkNicheKeyword (row : GscRow) : Option Recommendation :=
  if 5 < row.position then none
  else if 10 ≤ row.impressions then none
  else
    some ⟨"low_value_keyword", .low,
      "Niche keyword with minimal search volume",
      "The page \"" ++ row.page ++ "\" ranks at position " ++ toFixed1 row.position ++
        " for \"" ++ row.query ++ "\" but only received " ++ toString row.impressions ++
        " impressions. This keyword has very low search volume and may not be worth " ++
        "dedicating significant optimization effort to.",
      "Minimal -- focus effort on higher-volume opportunities instead.",
      .low,
      { query := some row.query, page := some row.page, position := some row.position,
        impressions := some row.impressions }⟩

/-- Rule 8 (`checkQuestionContent`): question query with enough impressions
ranking below the top 3. -/
def checkQuestionContent (row : GscRow) : Option Recommendation :=
  if !isQuestionQuery row.query then none
  else if row.impressions < MEDIUM_IMPRESSIONS_THRESHOLD then none
  else if row.position ≤ 3 then none
  else
    some ⟨"question_content", .medium,
      "Create FAQ or how-to content for this question query",
      "The question \"" ++ row.query ++ "\" generates " ++ toLocaleString row.impressions ++
        " impressions but your page ranks at position " ++ toFixed1 row.position ++ ". " ++
        "Creating dedicated FAQ or how-to content that directly answers this question " ++
        "could significantly improve rankings. Consider adding structured data " ++
        "(FAQ schema) to increase the chance of appearing in featured snippets.",
      "Question queries often trigger featured snippets, which can dramatically " ++
        "increase CTR.",
      .medium,
      { query := some row.query, page := some row.page, position := some row.position,
        impressions := some row.impressions }⟩

/-- `findCannibalizingQueries(rows)`: group rows by query in insertion order,
keep the groups with more than one row. -/
def findCannibalizingQueries (rows : List GscRow) : List (String × List GscRow) :=
  let queryPages := rows.foldl (fun m row =>
    if (m.lookup row.query).isSome then
      m.map (fun e => if e.1 = row.query then (e.1, e.2 ++ [row]) else e)
    else m ++ [(row.query, [row])]) []
  queryPages.filter (fun e => 1 < e.2.length)

/-- `Map.set` on an insertion-ordered association list (overwrite keeps the
original position, new keys append). -/
def mapSet (m : List (String × CtrAnalysis)) (k : String) (v : CtrAnalysis) :
    List (String × CtrAnalysis) :=
  if (m.lookup k).isSome then m.map (fun e => if e.1 = k then (k, v) else e)
  else m ++ [(k, v)]

/-- The five per-row rule applications, in source order. -/
def rowRecs (ctrByKey : List (String × CtrAnalysis)) (row : GscRow) :
    List Recommendation :=
  ([checkTitleOptimization row (ctrByKey.lookup (row.query ++ "::" ++ row.page)),
    checkContentExpansion row,
    checkPageTwoContent row,
    checkNicheKeyword row,
    checkQuestionContent row]).filterMap id

/-- `generateRecommendations(data)` from `recommendation-engine.ts`. -/
def generateRecommendations (data : RecommendationInput) : List Recommendation :=
  let rows := data.rows
  let ctrByKey : List (String × CtrAnalysis) :=
    match data.ctrAnalyses with
    | some analyses =>
      (rows.zip analyses).foldl
        (fun m ra => mapSet m (ra.1.query ++ "::" ++ ra.1.page) ra.2) []
    | none => []
  let perRow := rows.foldl (fun acc row => acc ++ rowRecs ctrByKey row) []
  let withCann := (findCannibalizingQueries rows).foldl
    (fun acc e => acc ++ (checkCannibalization e.1 e.2).toList) perRow
  match data.trends with
  | none => withCann
  | some trendList =>
    trendList.foldl (fun acc kt =>
      acc ++ (checkDecliningTrend kt.1 kt.2
        (rows.find? (fun r => r.query == kt.1 || r.page == kt.1))).toList) withCann

/-- Impressions used for sorting: `data.impressions ?? data.totalImpressions ?? 0`. -/
def recSortImpressions (rec : Recommendation) : ℚ :=
  (rec.data.impressions <|> rec.data.totalImpressions).getD 0

/-- The sort comparator of `sortRecommendations`: priority rank difference,
then descending impressions. -/
def compareRec (a b : Recommendation) : ℚ :=
  let priorityDiff := PRIORITY_ORDER a.priority - PRIORITY_ORDER b.priority
  if priorityDiff ≠ 0 then priorityDiff
  else recSortImpressions b - recSortImpressions a

/-- `sortRecommendations(recommendations)`: stable sort by the comparator
(JavaScript `Array.sort` is stable, hence `insertionSort`). -/
def sortRecommendations (recommendations : List Recommendation) : List Recommendation :=
  recommendations.insertionSort (fun a b => compareRec a b ≤ 0)

/-- JavaScript truthiness of an optional string: present and nonempty. -/
def jsTruthy (o : Option String) : Bool :=
  match o with
  | none => false
  | some s => !(s == "")

/-- The dedup pass of `deduplicateRecommendations`: keep the first
recommendation per `type::query::page` key; recommendations without a truthy
query and page are always kept. -/
def dedupLoop : List String → List Recommendation → List Recommendation
  | _, [] => []
  | seen, rec :: rest =>
    if jsTruthy rec.data.query && jsTruthy rec.data.page then
      let key := rec.type ++ "::" ++ rec.data.query.getD "" ++ "::" ++ rec.data.page.getD ""
      if seen.contains key then dedupLoop seen rest
      else rec :: dedupLoop (key :: seen) rest
    else rec :: dedupLoop seen rest

/-- `deduplicateRecommendations(recommendations)`: sort, then dedup. -/
def deduplicateRecommendations (recommendations : List Recommendation) :
    List Recommendation :=
  dedupLoop [] (sortRecommendations recommendations)

theorem dedupLoop_sublist (seen : List String) (l : List Recommendation) :
    (dedupLoop seen l).Sublist l := by
  induction l generalizing seen with
  | nil => simp [dedupLoop]
  | cons hd t ih =>
    simp only [dedupLoop]
    split
    · split
      · exact (ih _).trans (List.sublist_cons_self _ _)
      · exact List.Sublist.cons₂ _ (ih _)
    · exact List.Sublist.cons₂ _ (ih _)

theorem dedupLoop_count_eq (seen : List String) (l : List Recommendation)
    (rec : Recommendation)
    (h : (jsTruthy rec.data.query && jsTruthy rec.data.page) = false) :
    (dedupLoop seen l).count rec = l.count rec := by
  induction l generalizing seen with
  | nil => rfl
  | cons hd t ih =>
    simp only [dedupLoop]
    by_cases h1 : (jsTruthy hd.data.query && jsTruthy hd.data.page) = true
    · have hne : (hd == rec) = false := by
        refine beq_eq_false_iff_ne.mpr ?_
        intro he
        rw [he] at h1
        simp [h] at h1
      rw [if_pos h1]
      split
      · rw [ih seen, List.count_cons, hne]
        simp
      · rw [List.count_cons, List.count_cons, ih _]
    · rw [if_neg h1, List.count_cons, List.count_cons, ih _]

/-- C3: `deduplicateRecommendations` first sorts (by priority rank, then
descending impressions) and then keeps only the first, highest-priority
recommendation per (type, query, page) key: the result is a sublist of the
sorted list; a recommendation lacking query or page is always kept and never
collapsed (its multiplicity is preserved exactly); and two title_optimization
recommendations for the same (query, page) with priorities high and medium
collapse to the high one, in either input order. -/
theorem deduplicateRecommendations_spec (l : List Recommendation)
    (r₀ r₁ r₂ : Recommendation) (qs ps : String)
    (h0 : r₀.data.query = none ∨ r₀.data.page = none)
    (ht1 : r₁.type = "title_optimization") (ht2 : r₂.type = "title_optimization")
    (hp1 : r₁.priority = .high) (hp2 : r₂.priority = .medium)
    (hq1 : r₁.data.query = some qs) (hq2 : r₂.data.query = some qs)
    (hpg1 : r₁.data.page = some ps) (hpg2 : r₂.data.page = some ps)
    (hqs : qs ≠ "") (hps : ps ≠ "") :
    (deduplicateRecommendations l).Sublist (sortRecommendations l) ∧
    (deduplicateRecommendations l).count r₀ = l.count r₀ ∧
    deduplicateRecommendations [r₁, r₂] = [r₁] ∧
    deduplicateRecommendations [r₂, r₁] = [r₁] := by
  have htru : (jsTruthy r₀.data.query && jsTruthy r₀.data.page) = false := by
    rcases h0 with h | h <;> simp [jsTruthy, h]
  have hT1q : jsTruthy r₁.data.query = true := by rw [hq1]; simp [jsTruthy, hqs]
  have hT1p : jsTruthy r₁.data.page = true := by rw [hpg1]; simp [jsTruthy, hps]
  have hT2q : jsTruthy r₂.data.query = true := by rw [hq2]; simp [jsTruthy, hqs]
  have hT2p : jsTruthy r₂.data.page = true := by rw [hpg2]; simp [jsTruthy, hps]
  have hle : compareRec r₁ r₂ ≤ 0 := by
    simp [compareRec, PRIORITY_ORDER, hp1, hp2]
    norm_num
  have hgt : ¬ (compareRec r₂ r₁ ≤ 0) := by
    simp [compareRec, PRIORITY_ORDER, hp1, hp2]
    norm_num
  have hkey : r₂.type ++ "::" ++ r₂.data.query.getD "" ++ "::" ++ r₂.data.page.getD "" =
      r₁.type ++ "::" ++ r₁.data.query.getD "" ++ "::" ++ r₁.data.page.getD "" := by
    rw [ht1, ht2, hq1, hq2, hpg1, hpg2]
  have hsort12 : sortRecommendations [r₁, r₂] = [r₁, r₂] := by
    simp [sortRecommendations, List.insertionSort, List.orderedInsert, hle]
  have hsort21 : sortRecommendations [r₂, r₁] = [r₁, r₂] := by
    simp [sortRecommendations, List.insertionSort, List.orderedInsert, hgt]
  have hpass : dedupLoop [] [r₁, r₂] = [r₁] := by
    simp only [dedupLoop, hT1q, hT1p, hT2q, hT2p, Bool.and_self, if_pos]
    simp [hkey]
  refine ⟨dedupLoop_sublist _ _, ?_, ?_, ?_⟩
  · calc (deduplicateRecommendations l).count r₀
        = (sortRecommendations l).count r₀ :=
          dedupLoop_count_eq [] (sortRecommendations l) r₀ htru
      _ = l.count r₀ := (List.perm_insertionSort _ l).count_eq r₀
  · show dedupLoop [] (sortRecommendations [r₁, r₂]) = [r₁]
    rw [hsort12, hpass]
  · show dedupLoop [] (sortRecommendations [r₂, r₁]) = [r₁]
    rw [hsort21, hpass]

def sampleRecNoKey : Recommendation :=
  ⟨"content_refresh", .critical, "Refresh", "d", "i", .medium,
    { key := some "some-page", percentChange := some (-30) }⟩

def sampleRecHigh : Recommendation :=
  ⟨"title_optimization", .high, "t", "d", "i", .low,
    { query := some "q1", page := some "/p1", impressions := some 1000 }⟩

def sampleRecMedium : Recommendation :=
  ⟨"title_optimization", .medium, "t2", "d2", "i2", .low,
    { query := some "q1", page := some "/p1", impressions := some 500 }⟩

/-- Witness for C3 at concrete recommendations. -/
theorem deduplicateRecommendations_spec_witness :
    (sampleRecNoKey.data.query = none ∨ sampleRecNoKey.data.page = none) ∧
    sampleRecHigh.type = "title_optimization" ∧
    sampleRecMedium.type = "title_optimization" ∧
    sampleRecHigh.priority = Priority.high ∧ sampleRecMedium.priority = Priority.medium ∧
    sampleRecHigh.data.query = some "q1" ∧ sampleRecMedium.data.query = some "q1" ∧
    sampleRecHigh.data.page = some "/p1" ∧ sampleRecMedium.data.page = some "/p1" ∧
    "q1" ≠ "" ∧ "/p1" ≠ "" ∧
    ((deduplicateRecommendations [sampleRecNoKey]).Sublist
        (sortRecommendations [sampleRecNoKey]) ∧
      (deduplicateRecommendations [sampleRecNoKey]).count sampleRecNoKey =
        [sampleRecNoKey].count sampleRecNoKey ∧
      deduplicateRecommendations [sampleRecHigh, sampleRecMedium] = [sampleRecHigh] ∧
      deduplicateRecommendations [sampleRecMedium, sampleRecHigh] = [sampleRecHigh]) :=
  ⟨Or.inl rfl, rfl, rfl, rfl, rfl, rfl, rfl, rfl, rfl, by decide, by decide,
    deduplicateRecommendations_spec [sampleRecNoKey] sampleRecNoKey sampleRecHigh
      sampleRecMedium "q1" "/p1" (Or.inl rfl) rfl rfl rfl rfl rfl rfl rfl rfl
      (by decide) (by decide)⟩

theorem checkTitleOptimization_trigger (row : GscRow) (ctrA : Option CtrAnalysis) :
    checkTitleOptimization row ctrA ≠ none ↔
      (row.position ≤ 3 ∧ 100 ≤ row.impressions ∧
        (match ctrA with
         | some a => a.ctrRatio < 0.6
         | none => row.ctr < 0.05)) := by
  unfold checkTitleOptimization MEDIUM_IMPRESSIONS_THRESHOLD LOW_CTR_RATIO
  rcases ctrA with _ | a
  · dsimp only
    split_ifs with h1 h2 h3
    · simp
      intro hle hge
      linarith
    · simp
      intro hle hge
      linarith
    · simp at h3 ⊢
      exact ⟨by linarith, by linarith, h3⟩
    · simp at h3 ⊢
      intro hle hge
      linarith
  · dsimp only
    split_ifs with h1 h2 h3
    · simp
      intro hle hge
      linarith
    · simp
      intro hle hge
      linarith
    · simp at h3 ⊢
      exact ⟨by linarith, by linarith, h3⟩
    · simp at h3 ⊢
      intro hle hge
      linarith

/-- C4: a single row with position 2, impressions 5000, ctr 0.002 and no
optional inputs yields exactly one title_optimization recommendation, with
priority high and effort low; the identical row at position 5 yields no
title_optimization recommendation; and the rule trigger is exactly
position <= 3, impressions >= 100, and CTR ratio < 0.6 when a CtrAnalysis is
supplied, otherwise raw ctr < 0.05. -/
theorem generateRecommendations_title_rule (q p : String) (clicks : ℚ) :
    ((generateRecommendations ⟨[⟨q, p, clicks, 5000, 0.002, 2⟩], none, none, none⟩).filter
        (fun rec => rec.type == "title_optimization")).map
        (fun rec => (rec.priority, rec.effort)) = [(Priority.high, Effort.low)] ∧
    (generateRecommendations ⟨[⟨q, p, clicks, 5000, 0.002, 5⟩], none, none, none⟩).filter
        (fun rec => rec.type == "title_optimization") = [] ∧
    (∀ (row : GscRow) (ctrA : Option CtrAnalysis),
      checkTitleOptimization row ctrA ≠ none ↔
        (row.position ≤ 3 ∧ 100 ≤ row.impressions ∧
          (match ctrA with
           | some a => a.ctrRatio < 0.6
           | none => row.ctr < 0.05))) := by
  refine ⟨?_, ?_, fun row ctrA => checkTitleOptimization_trigger row ctrA⟩
  · cases hq : isQuestionQuery q <;>
      norm_num [generateRecommendations, rowRecs, checkTitleOptimization,
        checkContentExpansion, checkPageTwoContent, checkNicheKeyword,
        checkQuestionContent, findCannibalizingQueries, hq,
        MEDIUM_IMPRESSIONS_THRESHOLD, HIGH_IMPRESSIONS_THRESHOLD, LOW_CTR_RATIO,
        List.filterMap_cons, List.filter_cons, List.filter_nil,
        show ¬"content_expansion" = "title_optimization" by decide,
        show ¬"question_content" = "title_optimization" by decide]
  · cases hq : isQuestionQuery q <;>
      norm_num [generateRecommendations, rowRecs, checkTitleOptimization,
        checkContentExpansion, checkPageTwoContent, checkNicheKeyword,
        checkQuestionContent, findCannibalizingQueries, hq,
        MEDIUM_IMPRESSIONS_THRESHOLD, HIGH_IMPRESSIONS_THRESHOLD, LOW_CTR_RATIO,
        List.filterMap_cons, List.filter_cons, List.filter_nil,
        show ¬"content_expansion" = "title_optimization" by decide,
        show ¬"question_content" = "title_optimization" by decide]
